import Mathlib

/-!
Shallow embedding of the micromouse sensor-driver core
(src/sensor/vl53lxx/vl53l1x.rs, src/sensor/vl53lxx/vl53l0x.rs,
src/sensor/mpu9250.rs, src/i2c_devices.rs, src/distance_sensor.rs).

The continuous-measurement tasks are modelled as step functions over an
explicit state; each step consumes the outcomes of the device operations
performed during that loop segment and emits the observable events
(bus commands, timed sleeps, stores of `last_data`, callback invocations)
in program order.
-/

deriving instance DecidableEq for Except

namespace Micromouse

/-- Device-reported range status; the driver only ever compares against
`SIGNAL_FAIL` (`vl53l1::RangeStatus::SIGNAL_FAIL`). -/
inductive RangeStatus where
  | valid
  | signalFail
  | otherFail
deriving DecidableEq, Repr

/-- Model of `vl53l1::RangingMeasurementData`, restricted to the fields the driver
reads: `range_milli_meter : i16`, `sigma_milli_meter : u32` (16.16 fixed
point), `range_status`. -/
structure RangingMeasurementData where
  range_milli_meter : Int
  sigma_milli_meter : Nat
  range_status : RangeStatus
deriving DecidableEq, Repr

/-- Value of `RangingMeasurementData::default()` used for `last_data` at init. -/
def RangingMeasurementData.default : RangingMeasurementData :=
  { range_milli_meter := 0, sigma_milli_meter := 0, range_status := RangeStatus.valid }

/-- A bus/device error (`vl53l1::Error<i2c::Error>`): either an I2C bus
failure or a device-reported invalid-state fault. -/
inductive DevErr where
  | io
  | invalidState
deriving DecidableEq, Repr

/-- Outcome of one `wait_measurement_data_ready` probe: ready, or an
`nb::Error::WouldBlock`, or an `nb::Error::Other` device error. -/
inductive ProbeResult where
  | ready
  | wouldBlock
  | otherErr (e : DevErr)
deriving DecidableEq, Repr

/-- Observable events of one task, in program order. -/
inductive Event where
  | waitEdge
  | probeAttempt
  | sleep (ms : Nat)
  | readCmd
  | stopCmd
  | startCmd
  | rearmCmd
  | store (rmd : RangingMeasurementData)
  | storeDistance (d : Nat)
  | callbackInvoked (rmd : RangingMeasurementData)
deriving DecidableEq, Repr

/-- Returns true on a `store` event. -/
def Event.isStore : Event → Bool
  | Event.store _ => true
  | _ => false

/-- Returns true on a `callbackInvoked` event. The `Sensor` trait
(src/sensor/mod.rs) documents that continuous measurement "will ... call
the provided callback with the new measurement data", and the caller in
src/i2c_devices.rs passes such a callback; this event is the observable
of that invocation. The VL53L1X task body contains no callback call, so
no `step` branch ever emits it. -/
def Event.isCallback : Event → Bool
  | Event.callbackInvoked _ => true
  | _ => false

/-- Program points inside the loop body of `distance_sensor_task`
(src/sensor/vl53lxx/vl53l1x.rs lines 105-169): the loop head where the
task either waits for the falling edge or polls readiness (`sync`), the
`get_ranging_measurement_data` match (`read`), and the
`clear_interrupt_and_start_measurement` block (`rearm`). -/
inductive Phase where
  | sync
  | read
  | rearm
deriving DecidableEq, Repr

/-- The task-visible state of a `VL53L1XSensor`: the `recovery_mode` flag,
`last_data`, and the program point. -/
structure TaskState where
  recovery_mode : Bool
  last_data : RangingMeasurementData
  phase : Phase
deriving DecidableEq, Repr

/-- Device responses available to one step: the readiness-probe outcome
(consulted only at `sync` in recovery mode), the
`get_ranging_measurement_data` outcome (consulted only at `read`), the
`stop_measurement`/`start_measurement` outcomes (consulted only inside
`recover_sensor`), and the `clear_interrupt_and_start_measurement` outcome
(consulted only at `rearm`). -/
structure Input where
  probeRes : ProbeResult
  readRes : Except DevErr RangingMeasurementData
  stopRes : Except DevErr Unit
  startRes : Except DevErr Unit
  rearmRes : Except DevErr Unit
deriving DecidableEq, Repr

/-- Model of `VL53L1XSensor::recover_sensor` (src/sensor/vl53lxx/vl53l1x.rs lines
174-181): `let _ = stop_measurement(..)` discards the stop outcome, then
`Timer::after(100ms)`, then `start_measurement(..)?`; the result of the function
is exactly the `start_measurement` result. -/
def recover_sensor (stopRes startRes : Except DevErr Unit) :
    Except DevErr Unit × List Event :=
  match stopRes with
  | _ => (startRes, [Event.stopCmd, Event.sleep 100, Event.startCmd])

/-- One segment of the `distance_sensor_task` loop for the VL53L1X
(src/sensor/vl53lxx/vl53l1x.rs lines 105-169). -/
def step (s : TaskState) (i : Input) : TaskState × List Event :=
  match s.phase with
  | Phase.sync =>
    if s.recovery_mode then
      match i.probeRes with
      | ProbeResult.ready =>
        ({ s with recovery_mode := false, phase := Phase.read }, [Event.probeAttempt])
      | _ =>
        (s, [Event.probeAttempt, Event.sleep 10])
    else
      ({ s with phase := Phase.read }, [Event.waitEdge])
  | Phase.read =>
    match i.readRes with
    | Except.error _ =>
      let r := recover_sensor i.stopRes i.startRes
      match r.fst with
      | Except.ok _ =>
        ({ s with phase := Phase.sync }, Event.readCmd :: r.snd)
      | Except.error _ =>
        ({ s with recovery_mode := true, phase := Phase.sync },
          Event.readCmd :: r.snd ++ [Event.sleep 500])
    | Except.ok rmd =>
      if rmd.range_status ≠ RangeStatus.signalFail then
        ({ s with last_data := rmd, phase := Phase.rearm },
          [Event.readCmd, Event.store rmd])
      else
        ({ s with phase := Phase.rearm }, [Event.readCmd])
  | Phase.rearm =>
    match i.rearmRes with
    | Except.ok _ =>
      ({ s with phase := Phase.sync }, [Event.rearmCmd])
    | Except.error _ =>
      let r := recover_sensor i.stopRes i.startRes
      match r.fst with
      | Except.ok _ =>
        ({ s with phase := Phase.sync }, Event.rearmCmd :: r.snd)
      | Except.error _ =>
        ({ s with recovery_mode := true, phase := Phase.sync },
          Event.rearmCmd :: r.snd ++ [Event.sleep 500])

/-- Run the VL53L1X task over a finite list of per-segment inputs,
concatenating the emitted events. -/
def run (s : TaskState) : List Input → TaskState × List Event
  | [] => (s, [])
  | i :: is =>
    let p := step s i
    let q := run p.fst is
    (q.fst, p.snd ++ q.snd)

/-- Initial task state after a successful `init_new`. -/
def initialState : TaskState :=
  { recovery_mode := false, last_data := RangingMeasurementData.default,
    phase := Phase.sync }

/-! ### VL53L0X task (src/sensor/vl53lxx/vl53l0x.rs lines 141-161) -/

/-- Outcome of `self_.device.read_range_mm()` in the VL53L0X task:
`Ok(distance)` (a `u16`), `Err(nb::Error::WouldBlock)`, or
`Err(nb::Error::Other(e))`. -/
inductive L0xReadResult where
  | ok (d : Nat)
  | wouldBlock
  | otherErr (e : DevErr)
deriving DecidableEq, Repr

/-- One iteration of the VL53L0X `distance_sensor_task` loop
(src/sensor/vl53lxx/vl53l0x.rs lines 145-160): wait for the falling edge,
read; on `Ok` store `last_data`, on `WouldBlock` do nothing, on
`Other` log a warning — no recovery of any kind. -/
def l0xStep (last_data : Nat) (r : L0xReadResult) : Nat × List Event :=
  match r with
  | L0xReadResult.ok d =>
    (d, [Event.waitEdge, Event.readCmd, Event.storeDistance d])
  | L0xReadResult.wouldBlock => (last_data, [Event.waitEdge, Event.readCmd])
  | L0xReadResult.otherErr _ => (last_data, [Event.waitEdge, Event.readCmd])

/-! ### MPU9250 task (src/sensor/mpu9250.rs lines 57-70) -/

/-- Events of the MPU9250 `data_fetch_task`, generic over the measurement
payload (`MargMeasurements<[f32; 3]>`), which the task moves without
inspecting. -/
inductive MpuEvent (α : Type) where
  | waitEdge
  | readCmd
  | store (d : α)
  | callback (d : α)
deriving DecidableEq, Repr

/-- One iteration of `data_fetch_task` (src/sensor/mpu9250.rs lines 58-69):
wait for the falling edge; `self_.device.all()`; on `Ok(data)` set
`last_data = data` and then call `self_.on_new_data.unwrap()(&self_.last_data)`;
on `Err` log and `continue`. `none` models the `unwrap()` panic when no
callback was registered. -/
def mpuStep {α : Type} (on_new_data : Option Unit) (last_data : α)
    (r : Except Unit α) : Option (α × List (MpuEvent α)) :=
  match r with
  | Except.ok d =>
    match on_new_data with
    | some _ =>
      some (d, [MpuEvent.waitEdge, MpuEvent.readCmd, MpuEvent.store d,
        MpuEvent.callback d])
    | none => none
  | Except.error _ => some (last_data, [MpuEvent.waitEdge, MpuEvent.readCmd])

/-- Run the MPU9250 task over a list of read outcomes (after
`start_continuous_measurement` has set `on_new_data`, the flag stays set). -/
def mpuRun {α : Type} (on_new_data : Option Unit) (last_data : α) :
    List (Except Unit α) → Option (α × List (MpuEvent α))
  | [] => some (last_data, [])
  | r :: rs =>
    match mpuStep on_new_data last_data r with
    | none => none
    | some p =>
      match mpuRun on_new_data p.fst rs with
      | none => none
      | some q => some (q.fst, p.snd ++ q.snd)

/-! ### `VL53L1XSensor::init_new` (src/sensor/vl53lxx/vl53l1x.rs lines 29-87) -/

/-- Events of `init_new`, in program order. -/
inductive InitEvent where
  | resetLow
  | wait (ms : Nat)
  | resetHigh
  | dataInit
  | staticInit
  | setPresetMode
  | setUserRoi
  | setTimingBudget
  | setInterMeasurementPeriod
  | startMeasurement
deriving DecidableEq, Repr

/-- Outcomes of the seven fallible device operations `init_new` performs,
in source order. -/
structure InitOutcomes where
  dataInit : Except DevErr Unit
  staticInit : Except DevErr Unit
  setPresetMode : Except DevErr Unit
  setUserRoi : Except DevErr Unit
  setTimingBudget : Except DevErr Unit
  setInterMeasurementPeriod : Except DevErr Unit
  startMeasurement : Except DevErr Unit
deriving DecidableEq, Repr

/-- Model of `VL53L1XSensor::init_new`: XSHUT low, 10 ms, XSHUT high, 10 ms, then
`data_init`, `static_init`, `set_preset_mode`, `set_user_roi`,
`set_measurement_timing_budget_micro_seconds`,
`set_inter_measurement_period_milli_seconds`, `start_measurement`, each
propagated with `?`; on success the sensor is returned with default
`last_data` and `recovery_mode = false`. -/
def init_new (o : InitOutcomes) : Except DevErr TaskState × List InitEvent :=
  let pre := [InitEvent.resetLow, InitEvent.wait 10, InitEvent.resetHigh,
    InitEvent.wait 10]
  match o.dataInit with
  | Except.error e => (Except.error e, pre ++ [InitEvent.dataInit])
  | Except.ok _ =>
  match o.staticInit with
  | Except.error e => (Except.error e, pre ++ [InitEvent.dataInit, InitEvent.staticInit])
  | Except.ok _ =>
  match o.setPresetMode with
  | Except.error e =>
    (Except.error e, pre ++ [InitEvent.dataInit, InitEvent.staticInit,
      InitEvent.setPresetMode])
  | Except.ok _ =>
  match o.setUserRoi with
  | Except.error e =>
    (Except.error e, pre ++ [InitEvent.dataInit, InitEvent.staticInit,
      InitEvent.setPresetMode, InitEvent.setUserRoi])
  | Except.ok _ =>
  match o.setTimingBudget with
  | Except.error e =>
    (Except.error e, pre ++ [InitEvent.dataInit, InitEvent.staticInit,
      InitEvent.setPresetMode, InitEvent.setUserRoi, InitEvent.setTimingBudget])
  | Except.ok _ =>
  match o.setInterMeasurementPeriod with
  | Except.error e =>
    (Except.error e, pre ++ [InitEvent.dataInit, InitEvent.staticInit,
      InitEvent.setPresetMode, InitEvent.setUserRoi, InitEvent.setTimingBudget,
      InitEvent.setInterMeasurementPeriod])
  | Except.ok _ =>
  match o.startMeasurement with
  | Except.error e =>
    (Except.error e, pre ++ [InitEvent.dataInit, InitEvent.staticInit,
      InitEvent.setPresetMode, InitEvent.setUserRoi, InitEvent.setTimingBudget,
      InitEvent.setInterMeasurementPeriod, InitEvent.startMeasurement])
  | Except.ok _ =>
    (Except.ok initialState, pre ++ [InitEvent.dataInit, InitEvent.staticInit,
      InitEvent.setPresetMode, InitEvent.setUserRoi, InitEvent.setTimingBudget,
      InitEvent.setInterMeasurementPeriod, InitEvent.startMeasurement])

/-! ### Fleet initializer (src/i2c_devices.rs lines 19-102) -/

/-- Success/failure of the four fallible startup steps of
`init_i2c_devices`, in source order: `VL53L0XSensor::init_new`,
`VL53L1XSensor::init_new`, `sensor0.start_continuous_measurement`,
`sensor1.start_continuous_measurement`. -/
structure FleetOutcomes where
  init0 : Bool
  init1 : Bool
  start0 : Bool
  start1 : Bool
deriving DecidableEq, Repr

/-- Observable fleet-initialization events: an init or start attempt for
sensor `n`, or the process halting (`core::panic!` on init failure,
`.unwrap()` on start failure). -/
inductive FleetEvent where
  | initSensor (n : Nat)
  | startSensor (n : Nat)
  | halt
deriving DecidableEq, Repr

/-- Model of `init_i2c_devices` (src/i2c_devices.rs): init sensor 0, panic on
failure; init sensor 1, panic on failure; start sensor 0, `unwrap()`;
start sensor 1, `unwrap()`. -/
def init_i2c_devices (o : FleetOutcomes) : List FleetEvent :=
  FleetEvent.initSensor 0 ::
    if !o.init0 then [FleetEvent.halt] else
      FleetEvent.initSensor 1 ::
        if !o.init1 then [FleetEvent.halt] else
          FleetEvent.startSensor 0 ::
            if !o.start0 then [FleetEvent.halt] else
              FleetEvent.startSensor 1 ::
                if !o.start1 then [FleetEvent.halt] else []

/-! ### Sample values used by witnesses and counterexamples -/

/-- A Valid reading of 120 mm with sigma 0.5 mm (32768 / 65536 in the
16.16 fixed-point encoding of `sigma_milli_meter`). -/
def rmd120 : RangingMeasurementData :=
  { range_milli_meter := 120, sigma_milli_meter := 32768,
    range_status := RangeStatus.valid }

/-- A successfully read measurement whose status is `SIGNAL_FAIL`. -/
def rmdSignalFail : RangingMeasurementData :=
  { range_milli_meter := 100, sigma_milli_meter := 65536,
    range_status := RangeStatus.signalFail }

/-- Input in which every device operation succeeds and the read returns
`rmd120`. -/
def allOkInput : Input :=
  { probeRes := ProbeResult.ready, readRes := Except.ok rmd120,
    stopRes := Except.ok (), startRes := Except.ok (),
    rearmRes := Except.ok () }

/-- State at the read program point, not in recovery mode. -/
def readPhaseState : TaskState :=
  { recovery_mode := false, last_data := RangingMeasurementData.default,
    phase := Phase.read }

/-- State at the rearm program point, not in recovery mode. -/
def rearmPhaseState : TaskState :=
  { recovery_mode := false, last_data := RangingMeasurementData.default,
    phase := Phase.rearm }

/-- State at the loop head with `recovery_mode` set. -/
def recoveringState : TaskState :=
  { recovery_mode := true, last_data := RangingMeasurementData.default,
    phase := Phase.sync }

/-- Input whose read fails with a bus I/O error while `stop_measurement`
also fails and `start_measurement` succeeds. -/
def readErrInput : Input :=
  { probeRes := ProbeResult.wouldBlock, readRes := Except.error DevErr.io,
    stopRes := Except.error DevErr.io, startRes := Except.ok (),
    rearmRes := Except.ok () }

/-- Input whose readiness probe fails with a device error (a
non-transient failure, `nb::Error::Other`). -/
def probeOtherErrInput : Input :=
  { probeRes := ProbeResult.otherErr DevErr.io, readRes := Except.ok rmd120,
    stopRes := Except.ok (), startRes := Except.ok (),
    rearmRes := Except.ok () }

/-- Input whose readiness probe reports would-block (transient). -/
def probeWouldBlockInput : Input :=
  { probeRes := ProbeResult.wouldBlock, readRes := Except.ok rmd120,
    stopRes := Except.ok (), startRes := Except.ok (),
    rearmRes := Except.ok () }

/-- Input whose read succeeds with a `SIGNAL_FAIL` measurement. -/
def readSignalFailInput : Input :=
  { probeRes := ProbeResult.wouldBlock, readRes := Except.ok rmdSignalFail,
    stopRes := Except.ok (), startRes := Except.ok (),
    rearmRes := Except.ok () }

/-- Input whose rearm fails while recovery (stop ignored, start ok)
succeeds. -/
def rearmErrInput : Input :=
  { probeRes := ProbeResult.wouldBlock, readRes := Except.ok rmd120,
    stopRes := Except.error DevErr.io, startRes := Except.ok (),
    rearmRes := Except.error DevErr.io }

/-- Conjunction, as a Boolean, of the outcomes of the seven fallible
`init_new` device operations. -/
def InitOutcomes.allOk (o : InitOutcomes) : Bool :=
  o.dataInit.isOk && o.staticInit.isOk && o.setPresetMode.isOk &&
    o.setUserRoi.isOk && o.setTimingBudget.isOk &&
    o.setInterMeasurementPeriod.isOk && o.startMeasurement.isOk

/-- Fleet outcomes in which the init of sensor 0 fails and everything
else would succeed. -/
def failInit0 : FleetOutcomes :=
  { init0 := false, init1 := true, start0 := true, start1 := true }

/-- Init outcomes in which every device operation succeeds. -/
def allOkInit : InitOutcomes :=
  { dataInit := Except.ok (), staticInit := Except.ok (),
    setPresetMode := Except.ok (), setUserRoi := Except.ok (),
    setTimingBudget := Except.ok (), setInterMeasurementPeriod := Except.ok (),
    startMeasurement := Except.ok () }

/-! ### Branch lemmas for `step` -/

theorem recover_sensor_eq (a b : Except DevErr Unit) :
    recover_sensor a b = (b, [Event.stopCmd, Event.sleep 100, Event.startCmd]) := by
  cases a <;> rfl

theorem step_sync_normal (s : TaskState) (i : Input) (h : s.phase = Phase.sync)
    (hr : s.recovery_mode = false) :
    step s i = ({ s with phase := Phase.read }, [Event.waitEdge]) := by
  simp [step, h, hr]

theorem step_sync_recovery_ready (s : TaskState) (i : Input)
    (h : s.phase = Phase.sync) (hr : s.recovery_mode = true)
    (hp : i.probeRes = ProbeResult.ready) :
    step s i = ({ s with recovery_mode := false, phase := Phase.read },
      [Event.probeAttempt]) := by
  simp [step, h, hr, hp]

theorem step_sync_recovery_fail (s : TaskState) (i : Input)
    (h : s.phase = Phase.sync) (hr : s.recovery_mode = true)
    (hp : i.probeRes ≠ ProbeResult.ready) :
    step s i = (s, [Event.probeAttempt, Event.sleep 10]) := by
  cases hpp : i.probeRes with
  | ready => exact absurd hpp hp
  | wouldBlock => simp [step, h, hr, hpp]
  | otherErr e => simp [step, h, hr, hpp]

theorem step_read_err_start_ok (s : TaskState) (i : Input) (e : DevErr)
    (h : s.phase = Phase.read) (hr : i.readRes = Except.error e)
    (hs : i.startRes = Except.ok ()) :
    step s i = ({ s with phase := Phase.sync },
      [Event.readCmd, Event.stopCmd, Event.sleep 100, Event.startCmd]) := by
  simp [step, h, hr, recover_sensor_eq, hs]

theorem step_read_err_start_err (s : TaskState) (i : Input) (e e2 : DevErr)
    (h : s.phase = Phase.read) (hr : i.readRes = Except.error e)
    (hs : i.startRes = Except.error e2) :
    step s i = ({ s with recovery_mode := true, phase := Phase.sync },
      [Event.readCmd, Event.stopCmd, Event.sleep 100, Event.startCmd,
        Event.sleep 500]) := by
  simp [step, h, hr, recover_sensor_eq, hs]

theorem step_read_ok_signalFail (s : TaskState) (i : Input)
    (rmd : RangingMeasurementData) (h : s.phase = Phase.read)
    (hr : i.readRes = Except.ok rmd)
    (hst : rmd.range_status = RangeStatus.signalFail) :
    step s i = ({ s with phase := Phase.rearm }, [Event.readCmd]) := by
  simp [step, h, hr, hst]

theorem step_read_ok_store (s : TaskState) (i : Input)
    (rmd : RangingMeasurementData) (h : s.phase = Phase.read)
    (hr : i.readRes = Except.ok rmd)
    (hst : rmd.range_status ≠ RangeStatus.signalFail) :
    step s i = ({ s with last_data := rmd, phase := Phase.rearm },
      [Event.readCmd, Event.store rmd]) := by
  simp [step, h, hr, hst]

theorem step_rearm_ok (s : TaskState) (i : Input) (h : s.phase = Phase.rearm)
    (hr : i.rearmRes = Except.ok ()) :
    step s i = ({ s with phase := Phase.sync }, [Event.rearmCmd]) := by
  simp [step, h, hr]

theorem step_rearm_err_start_ok (s : TaskState) (i : Input) (e : DevErr)
    (h : s.phase = Phase.rearm) (hr : i.rearmRes = Except.error e)
    (hs : i.startRes = Except.ok ()) :
    step s i = ({ s with phase := Phase.sync },
      [Event.rearmCmd, Event.stopCmd, Event.sleep 100, Event.startCmd]) := by
  simp [step, h, hr, recover_sensor_eq, hs]

theorem step_rearm_err_start_err (s : TaskState) (i : Input) (e e2 : DevErr)
    (h : s.phase = Phase.rearm) (hr : i.rearmRes = Except.error e)
    (hs : i.startRes = Except.error e2) :
    step s i = ({ s with recovery_mode := true, phase := Phase.sync },
      [Event.rearmCmd, Event.stopCmd, Event.sleep 100, Event.startCmd,
        Event.sleep 500]) := by
  simp [step, h, hr, recover_sensor_eq, hs]

/-! ### Phase-transition and backoff-bound lemmas -/

theorem step_sync_phase (s : TaskState) (i : Input) (h : s.phase = Phase.sync) :
    (step s i).fst.phase = Phase.sync ∨ (step s i).fst.phase = Phase.read := by
  cases hr : s.recovery_mode with
  | false => rw [step_sync_normal s i h hr]; right; rfl
  | true =>
    cases hp : i.probeRes with
    | ready => rw [step_sync_recovery_ready s i h hr hp]; right; rfl
    | wouldBlock =>
      rw [step_sync_recovery_fail s i h hr (by simp [hp])]; left; exact h
    | otherErr e =>
      rw [step_sync_recovery_fail s i h hr (by simp [hp])]; left; exact h

theorem step_read_phase (s : TaskState) (i : Input) (h : s.phase = Phase.read) :
    (step s i).fst.phase = Phase.sync ∨ (step s i).fst.phase = Phase.rearm := by
  cases hrr : i.readRes with
  | error e =>
    cases hs : i.startRes with
    | ok u => cases u; rw [step_read_err_start_ok s i e h hrr hs]; left; rfl
    | error e2 => rw [step_read_err_start_err s i e e2 h hrr hs]; left; rfl
  | ok rmd =>
    by_cases hst : rmd.range_status = RangeStatus.signalFail
    · rw [step_read_ok_signalFail s i rmd h hrr hst]; right; rfl
    · rw [step_read_ok_store s i rmd h hrr hst]; right; rfl

theorem step_rearm_phase (s : TaskState) (i : Input) (h : s.phase = Phase.rearm) :
    (step s i).fst.phase = Phase.sync := by
  cases hrr : i.rearmRes with
  | ok u => cases u; rw [step_rearm_ok s i h hrr]
  | error e =>
    cases hs : i.startRes with
    | ok u => cases u; rw [step_rearm_err_start_ok s i e h hrr hs]
    | error e2 => rw [step_rearm_err_start_err s i e e2 h hrr hs]

theorem step_sleep_bound (s : TaskState) (i : Input) (ms : Nat)
    (h : Event.sleep ms ∈ (step s i).snd) : ms = 10 ∨ ms = 100 ∨ ms = 500 := by
  cases hph : s.phase with
  | sync =>
    cases hr : s.recovery_mode with
    | false => rw [step_sync_normal s i hph hr] at h; simp at h
    | true =>
      cases hp : i.probeRes with
      | ready => rw [step_sync_recovery_ready s i hph hr hp] at h; simp at h
      | wouldBlock =>
        rw [step_sync_recovery_fail s i hph hr (by simp [hp])] at h
        simp at h; exact Or.inl h
      | otherErr e =>
        rw [step_sync_recovery_fail s i hph hr (by simp [hp])] at h
        simp at h; exact Or.inl h
  | read =>
    cases hrr : i.readRes with
    | error e =>
      cases hs : i.startRes with
      | ok u =>
        cases u; rw [step_read_err_start_ok s i e hph hrr hs] at h
        simp at h; exact Or.inr (Or.inl h)
      | error e2 =>
        rw [step_read_err_start_err s i e e2 hph hrr hs] at h
        simp at h
        rcases h with h | h
        · exact Or.inr (Or.inl h)
        · exact Or.inr (Or.inr h)
    | ok rmd =>
      by_cases hst : rmd.range_status = RangeStatus.signalFail
      · rw [step_read_ok_signalFail s i rmd hph hrr hst] at h; simp at h
      · rw [step_read_ok_store s i rmd hph hrr hst] at h; simp at h
  | rearm =>
    cases hrr : i.rearmRes with
    | ok u => cases u; rw [step_rearm_ok s i hph hrr] at h; simp at h
    | error e =>
      cases hs : i.startRes with
      | ok u =>
        cases u; rw [step_rearm_err_start_ok s i e hph hrr hs] at h
        simp at h; exact Or.inr (Or.inl h)
      | error e2 =>
        rw [step_rearm_err_start_err s i e e2 hph hrr hs] at h
        simp at h
        rcases h with h | h
        · exact Or.inr (Or.inl h)
        · exact Or.inr (Or.inr h)

/-! ### Claim theorems -/

/-- C1 (counterexample): the claim quantifies over every driver variant,
but the VL53L0X `distance_sensor_task` performs no recovery at all: on a
read error it merely logs and returns to waiting for the next edge — no
`stop()` is attempted, no wait is inserted, no `start()` is issued, and
`last_data` is unchanged. -/
theorem C1_l0x_read_error_no_recovery_counterexample :
    l0xStep 42 (L0xReadResult.otherErr DevErr.io)
      = (42, [Event.waitEdge, Event.readCmd]) ∧
    Event.stopCmd ∉ (l0xStep 42 (L0xReadResult.otherErr DevErr.io)).snd ∧
    Event.startCmd ∉ (l0xStep 42 (L0xReadResult.otherErr DevErr.io)).snd := by
  decide

/-- C1 (amended): in the VL53L1X task only, a read error in the Normal
state triggers `stop(); wait 100 ms; start()`; if `start()` succeeds the
state is unchanged except for returning to the loop head (so the task
remains in Normal and neither stores nor forwards a measurement this
cycle); if it fails, `recovery_mode` is set and the task sleeps 500 ms
before the next iteration. -/
theorem C1_vl53l1x_read_error_recovery :
    ∀ (s : TaskState) (i : Input) (e : DevErr),
      s.phase = Phase.read → i.readRes = Except.error e →
      ((i.startRes = Except.ok () →
        step s i = ({ s with phase := Phase.sync },
          [Event.readCmd, Event.stopCmd, Event.sleep 100, Event.startCmd])) ∧
       (∀ e2 : DevErr, i.startRes = Except.error e2 →
        step s i = ({ s with recovery_mode := true, phase := Phase.sync },
          [Event.readCmd, Event.stopCmd, Event.sleep 100, Event.startCmd,
            Event.sleep 500]))) := by
  intro s i e h hr
  exact ⟨fun hs => step_read_err_start_ok s i e h hr hs,
    fun e2 hs => step_read_err_start_err s i e e2 h hr hs⟩

/-- C1 (witness): concrete successful-recovery instance of the amended
claim. -/
theorem C1_vl53l1x_read_error_recovery_witness :
    step readPhaseState readErrInput = ({ readPhaseState with phase := Phase.sync },
      [Event.readCmd, Event.stopCmd, Event.sleep 100, Event.startCmd]) :=
  (C1_vl53l1x_read_error_recovery readPhaseState readErrInput DevErr.io rfl rfl).1 rfl

/-- C2 (counterexample): in the Recovering state, a readiness probe that
fails with a non-transient device error does not re-enter the
`stop()+start()` recovery attempt: the step emits no stop or start
command, leaves the state unchanged (still Recovering), and simply
retries after a 10 ms backoff. -/
theorem C2_probe_error_no_stop_start_counterexample :
    Event.stopCmd ∉ (step recoveringState probeOtherErrInput).snd ∧
    Event.startCmd ∉ (step recoveringState probeOtherErrInput).snd ∧
    (step recoveringState probeOtherErrInput).fst = recoveringState ∧
    (step recoveringState probeOtherErrInput).snd
      = [Event.probeAttempt, Event.sleep 10] := by
  decide

/-- C2 (amended): in the Recovering state every probe failure, transient
(`WouldBlock`) or not (`Other`), is retried after a 10 ms backoff with no
stop/start attempt and no bound on the number of retries; the
`stop()+start()` recovery path is re-entered only after the poll loop has
exited on a successful probe and the subsequent measurement read fails. -/
theorem C2_probe_failure_retried_without_stop_start :
    ∀ (s : TaskState) (i : Input),
      s.phase = Phase.sync → s.recovery_mode = true →
      ((i.probeRes ≠ ProbeResult.ready →
        step s i = (s, [Event.probeAttempt, Event.sleep 10])) ∧
       (i.probeRes = ProbeResult.ready →
        (step s i).fst.recovery_mode = false ∧
        (step s i).fst.phase = Phase.read) ∧
       (∀ (s2 : TaskState) (i2 : Input) (e : DevErr),
        s2.phase = Phase.read → i2.readRes = Except.error e →
        Event.stopCmd ∈ (step s2 i2).snd ∧
        Event.startCmd ∈ (step s2 i2).snd)) := by
  intro s i h hrm
  refine ⟨fun hp => step_sync_recovery_fail s i h hrm hp, fun hp => ?_,
    fun s2 i2 e h2 hr2 => ?_⟩
  · rw [step_sync_recovery_ready s i h hrm hp]; exact ⟨rfl, rfl⟩
  · cases hs : i2.startRes with
    | ok u =>
      cases u; rw [step_read_err_start_ok s2 i2 e h2 hr2 hs]
      exact ⟨by simp, by simp⟩
    | error e2 =>
      rw [step_read_err_start_err s2 i2 e e2 h2 hr2 hs]
      exact ⟨by simp, by simp⟩

/-- C2 (witness): a would-block probe in Recovering is retried after a
10 ms backoff. -/
theorem C2_probe_failure_retried_without_stop_start_witness :
    step recoveringState probeWouldBlockInput
      = (recoveringState, [Event.probeAttempt, Event.sleep 10]) :=
  (C2_probe_failure_retried_without_stop_start recoveringState
    probeWouldBlockInput rfl rfl).1 (by decide)

/-- C3 (counterexample): a successfully read measurement with status
`SIGNAL_FAIL` (which is not Valid) is not recorded in `last_data`: after
the step, `last_data` still holds its previous (default) value, not the
read measurement — contradicting the claim that every non-Valid
measurement is still recorded as `last_measurement`. -/
theorem C3_signal_fail_not_recorded_counterexample :
    (step readPhaseState readSignalFailInput).fst.last_data ≠ rmdSignalFail ∧
    (step readPhaseState readSignalFailInput).fst.last_data
      = RangingMeasurementData.default := by
  decide

/-- C3 (amended): a successfully read measurement with status
`SIGNAL_FAIL` is discarded entirely (`last_data` unchanged, nothing
forwarded), while a measurement with any other status — Valid or not — is
recorded in `last_data`; no measurement is ever passed to a user callback
by this task (its body contains no callback invocation). -/
theorem C3_signal_fail_discarded_others_recorded :
    ∀ (s : TaskState) (i : Input) (rmd : RangingMeasurementData),
      s.phase = Phase.read → i.readRes = Except.ok rmd →
      ((rmd.range_status = RangeStatus.signalFail →
        (step s i).fst.last_data = s.last_data ∧
        (step s i).snd = [Event.readCmd]) ∧
       (rmd.range_status ≠ RangeStatus.signalFail →
        (step s i).fst.last_data = rmd ∧
        (step s i).snd = [Event.readCmd, Event.store rmd]) ∧
       (∀ m : RangingMeasurementData,
        Event.callbackInvoked m ∉ (step s i).snd)) := by
  intro s i rmd h hr
  refine ⟨fun hst => ?_, fun hst => ?_, fun m => ?_⟩
  · rw [step_read_ok_signalFail s i rmd h hr hst]; exact ⟨rfl, rfl⟩
  · rw [step_read_ok_store s i rmd h hr hst]; exact ⟨rfl, rfl⟩
  · by_cases hst : rmd.range_status = RangeStatus.signalFail
    · rw [step_read_ok_signalFail s i rmd h hr hst]; simp
    · rw [step_read_ok_store s i rmd h hr hst]; simp

/-- C3 (witness): concrete `SIGNAL_FAIL` instance of the amended claim. -/
theorem C3_signal_fail_discarded_others_recorded_witness :
    (step readPhaseState readSignalFailInput).fst.last_data
        = readPhaseState.last_data ∧
    (step readPhaseState readSignalFailInput).snd = [Event.readCmd] :=
  (C3_signal_fail_discarded_others_recorded readPhaseState readSignalFailInput
    rmdSignalFail rfl rfl).1 rfl

/-- C4: evaluation at the failing input. Five consecutive cycles in which
the device reports the Valid measurement `(120 mm, sigma 0.5 mm)` drive
the VL53L1X task through fifteen loop segments; `last_data` ends at that
measurement and is stored exactly five times, but the user callback is
invoked zero times — the task body contains no callback call, although
the `Sensor` trait in src/sensor/mod.rs documents one and the caller in
src/i2c_devices.rs registers one. By contrast the MPU9250
`data_fetch_task` does invoke its callback exactly once per successful
read, with `last_data` stored before each invocation. -/
theorem C4_five_valid_zero_callbacks :
    (run initialState (List.replicate 15 allOkInput)).snd.countP
      Event.isCallback = 0 ∧
    (run initialState (List.replicate 15 allOkInput)).snd.countP
      Event.isStore = 5 ∧
    (run initialState (List.replicate 15 allOkInput)).fst.last_data = rmd120 ∧
    mpuRun (some ()) (0 : Nat) (List.replicate 5 (Except.ok 120))
      = some (120,
        [MpuEvent.waitEdge, MpuEvent.readCmd, MpuEvent.store 120,
          MpuEvent.callback 120,
         MpuEvent.waitEdge, MpuEvent.readCmd, MpuEvent.store 120,
          MpuEvent.callback 120,
         MpuEvent.waitEdge, MpuEvent.readCmd, MpuEvent.store 120,
          MpuEvent.callback 120,
         MpuEvent.waitEdge, MpuEvent.readCmd, MpuEvent.store 120,
          MpuEvent.callback 120,
         MpuEvent.waitEdge, MpuEvent.readCmd, MpuEvent.store 120,
          MpuEvent.callback 120]) := by
  decide

/-- C5: in the Recovering state the task never waits on the ready-signal
edge; a failed readiness probe is retried with a 10 ms backoff (the state
is unchanged, so the next segment probes again), and a successful probe
clears `recovery_mode` and continues with the normal read/rearm sequence
for that cycle. -/
theorem C5_recovering_polls_with_10ms_backoff :
    ∀ (s : TaskState) (i : Input),
      s.phase = Phase.sync → s.recovery_mode = true →
      (Event.waitEdge ∉ (step s i).snd ∧
       (i.probeRes ≠ ProbeResult.ready →
        step s i = (s, [Event.probeAttempt, Event.sleep 10])) ∧
       (i.probeRes = ProbeResult.ready →
        step s i = ({ s with recovery_mode := false, phase := Phase.read },
          [Event.probeAttempt]))) := by
  intro s i h hrm
  refine ⟨?_, fun hp => step_sync_recovery_fail s i h hrm hp,
    fun hp => step_sync_recovery_ready s i h hrm hp⟩
  by_cases hp : i.probeRes = ProbeResult.ready
  · rw [step_sync_recovery_ready s i h hrm hp]; simp
  · rw [step_sync_recovery_fail s i h hrm hp]; simp

/-- C5 (witness): a successful probe in Recovering clears the flag and
proceeds to the read. -/
theorem C5_recovering_polls_with_10ms_backoff_witness :
    step recoveringState allOkInput
      = ({ recoveringState with recovery_mode := false, phase := Phase.read },
        [Event.probeAttempt]) :=
  (C5_recovering_polls_with_10ms_backoff recoveringState allOkInput
    rfl rfl).2.2 rfl

/-- C6: a `clear_interrupt_and_start_measurement` (rearm) failure followed
by a successful `stop()+start()` recovery leaves the task in Normal:
`recovery_mode` remains false after the step (it is never set in that
execution), and the emitted events are exactly the rearm attempt, the
stop, the 100 ms wait and the successful start. -/
theorem C6_rearm_fail_recover_ok_stays_normal :
    ∀ (s : TaskState) (i : Input) (e : DevErr),
      s.recovery_mode = false → s.phase = Phase.rearm →
      i.rearmRes = Except.error e → i.startRes = Except.ok () →
      ((step s i).fst.recovery_mode = false ∧
       (step s i).fst.phase = Phase.sync ∧
       (step s i).snd
         = [Event.rearmCmd, Event.stopCmd, Event.sleep 100, Event.startCmd]) := by
  intro s i e hrm h hr hs
  rw [step_rearm_err_start_ok s i e h hr hs]
  exact ⟨hrm, rfl, rfl⟩

/-- C6 (witness): concrete instance with a failing rearm and succeeding
recovery. -/
theorem C6_rearm_fail_recover_ok_stays_normal_witness :
    (step rearmPhaseState rearmErrInput).fst.recovery_mode = false ∧
    (step rearmPhaseState rearmErrInput).fst.phase = Phase.sync ∧
    (step rearmPhaseState rearmErrInput).snd
      = [Event.rearmCmd, Event.stopCmd, Event.sleep 100, Event.startCmd] :=
  C6_rearm_fail_recover_ok_stays_normal rearmPhaseState rearmErrInput
    DevErr.io rfl rfl rfl rfl

/-- C7: for every state at the loop head and every sequence of device
outcomes, the task re-enters the loop head within at most three segments
(the step function is total, so no iteration terminates the task or
panics), and every backoff it sleeps is one of the 10 ms, 100 ms or
500 ms bounded delays. -/
theorem C7_loop_reentry_and_bounded_backoff :
    (∀ (s : TaskState) (i1 i2 i3 : Input), s.phase = Phase.sync →
      ((step s i1).fst.phase = Phase.sync ∨
       (step (step s i1).fst i2).fst.phase = Phase.sync ∨
       (step (step (step s i1).fst i2).fst i3).fst.phase = Phase.sync)) ∧
    (∀ (s : TaskState) (i : Input) (ms : Nat),
      Event.sleep ms ∈ (step s i).snd → ms = 10 ∨ ms = 100 ∨ ms = 500) := by
  constructor
  · intro s i1 i2 i3 h
    rcases step_sync_phase s i1 h with h1 | h1
    · exact Or.inl h1
    · rcases step_read_phase (step s i1).fst i2 h1 with h2 | h2
      · exact Or.inr (Or.inl h2)
      · exact Or.inr (Or.inr (step_rearm_phase (step (step s i1).fst i2).fst i3 h2))
  · exact step_sleep_bound

/-- C7 (witness): concrete loop re-entry from the initial state. -/
theorem C7_loop_reentry_and_bounded_backoff_witness :
    (step initialState allOkInput).fst.phase = Phase.sync ∨
    (step (step initialState allOkInput).fst allOkInput).fst.phase
      = Phase.sync ∨
    (step (step (step initialState allOkInput).fst allOkInput).fst
      allOkInput).fst.phase = Phase.sync :=
  C7_loop_reentry_and_bounded_backoff.1 initialState allOkInput allOkInput
    allOkInput rfl

/-- C8: `init_new` succeeds exactly when all seven device operations
succeed (on any bus I/O or invalid-state error it returns the error and
no sensor instance); it always begins with the reset pulse (reset low,
wait 10 ms, reset high, wait 10 ms); and on full success the bring-up
events are, in order, data init, static init, preset mode, ROI, timing
budget, inter-measurement period, start measurement. -/
theorem C8_init_sequence :
    ∀ o : InitOutcomes,
      (((init_new o).fst.isOk = true) ↔ o.allOk = true) ∧
      (init_new o).snd.take 4
        = [InitEvent.resetLow, InitEvent.wait 10, InitEvent.resetHigh,
            InitEvent.wait 10] ∧
      (o.allOk = true →
        init_new o = (Except.ok initialState,
          [InitEvent.resetLow, InitEvent.wait 10, InitEvent.resetHigh,
            InitEvent.wait 10, InitEvent.dataInit, InitEvent.staticInit,
            InitEvent.setPresetMode, InitEvent.setUserRoi,
            InitEvent.setTimingBudget, InitEvent.setInterMeasurementPeriod,
            InitEvent.startMeasurement])) := by
  intro o
  obtain ⟨d, st, pm, roi, tb, imp, sm⟩ := o
  cases d with
  | error e => simp [init_new, InitOutcomes.allOk, Except.isOk, Except.toBool]
  | ok u =>
    cases u
    cases st with
    | error e => simp [init_new, InitOutcomes.allOk, Except.isOk, Except.toBool]
    | ok u =>
      cases u
      cases pm with
      | error e => simp [init_new, InitOutcomes.allOk, Except.isOk, Except.toBool]
      | ok u =>
        cases u
        cases roi with
        | error e => simp [init_new, InitOutcomes.allOk, Except.isOk, Except.toBool]
        | ok u =>
          cases u
          cases tb with
          | error e => simp [init_new, InitOutcomes.allOk, Except.isOk, Except.toBool]
          | ok u =>
            cases u
            cases imp with
            | error e => simp [init_new, InitOutcomes.allOk, Except.isOk, Except.toBool]
            | ok u =>
              cases u
              cases sm with
              | error e => simp [init_new, InitOutcomes.allOk, Except.isOk, Except.toBool]
              | ok u => cases u; simp [init_new, InitOutcomes.allOk, Except.isOk, Except.toBool]

/-- C8 (witness): the all-success bring-up produces the full ordered
event sequence and the initial sensor state. -/
theorem C8_init_sequence_witness :
    init_new allOkInit = (Except.ok initialState,
      [InitEvent.resetLow, InitEvent.wait 10, InitEvent.resetHigh,
        InitEvent.wait 10, InitEvent.dataInit, InitEvent.staticInit,
        InitEvent.setPresetMode, InitEvent.setUserRoi,
        InitEvent.setTimingBudget, InitEvent.setInterMeasurementPeriod,
        InitEvent.startMeasurement]) :=
  (C8_init_sequence allOkInit).2.2 (by decide)

/-- C9: in `init_i2c_devices`, the process runs to completion (no halt)
exactly when both inits and both starts succeed, and a failure of any
single step halts the process before any later sensor is inited or
started: an init-0 failure prevents init 1 and both starts, an init-1
failure prevents both starts, and a start-0 failure prevents start 1. -/
theorem C9_fleet_fail_fast :
    ∀ o : FleetOutcomes,
      ((FleetEvent.halt ∉ init_i2c_devices o) ↔
        (o.init0 = true ∧ o.init1 = true ∧ o.start0 = true ∧
          o.start1 = true)) ∧
      (o.init0 = false →
        FleetEvent.initSensor 1 ∉ init_i2c_devices o ∧
        FleetEvent.startSensor 0 ∉ init_i2c_devices o ∧
        FleetEvent.startSensor 1 ∉ init_i2c_devices o ∧
        FleetEvent.halt ∈ init_i2c_devices o) ∧
      (o.init1 = false →
        FleetEvent.startSensor 0 ∉ init_i2c_devices o ∧
        FleetEvent.startSensor 1 ∉ init_i2c_devices o ∧
        FleetEvent.halt ∈ init_i2c_devices o) ∧
      (o.start0 = false →
        FleetEvent.startSensor 1 ∉ init_i2c_devices o ∧
        FleetEvent.halt ∈ init_i2c_devices o) ∧
      (o.start1 = false → FleetEvent.halt ∈ init_i2c_devices o) := by
  intro o
  obtain ⟨i0, i1, s0, s1⟩ := o
  cases i0 <;> cases i1 <;> cases s0 <;> cases s1 <;> decide

/-- C9 (witness): when sensor 0 fails to init, the process halts and no
sensor is started. -/
theorem C9_fleet_fail_fast_witness :
    FleetEvent.initSensor 1 ∉ init_i2c_devices failInit0 ∧
    FleetEvent.startSensor 0 ∉ init_i2c_devices failInit0 ∧
    FleetEvent.startSensor 1 ∉ init_i2c_devices failInit0 ∧
    FleetEvent.halt ∈ init_i2c_devices failInit0 :=
  (C9_fleet_fail_fast failInit0).2.1 rfl

/-- C10: `recover_sensor` discards the `stop_measurement` outcome
entirely — its result is exactly the `start_measurement` result, so it
succeeds if and only if the start issued after the 100 ms wait succeeds,
and its bus trace is always stop, 100 ms wait, start. -/
theorem C10_recover_ignores_stop_result :
    ∀ stopRes startRes : Except DevErr Unit,
      ((recover_sensor stopRes startRes).fst = startRes) ∧
      (((recover_sensor stopRes startRes).fst.isOk = true) ↔
        (startRes.isOk = true)) ∧
      (recover_sensor stopRes startRes).snd
        = [Event.stopCmd, Event.sleep 100, Event.startCmd] := by
  intro stopRes startRes
  cases stopRes <;> exact ⟨rfl, Iff.rfl, rfl⟩

/-- C10 (witness): a failed stop followed by a successful start counts as
a successful recovery. -/
theorem C10_recover_ignores_stop_result_witness :
    ((recover_sensor (Except.error DevErr.io) (Except.ok ())).fst
        = Except.ok ()) ∧
    (((recover_sensor (Except.error DevErr.io) (Except.ok ())).fst.isOk
        = true) ↔ ((Except.ok () : Except DevErr Unit).isOk = true)) ∧
    (recover_sensor (Except.error DevErr.io) (Except.ok ())).snd
      = [Event.stopCmd, Event.sleep 100, Event.startCmd] :=
  C10_recover_ignores_stop_result (Except.error DevErr.io) (Except.ok ())

end Micromouse
